import Mathlib

/-!
# MessageMaster — verification of spec claims against the source

Shallow embedding of the scheduling/dispatch core of the MessageMaster
repository.  The Twilio provider (`src/api/twilio_service.py`) is embedded
directly from its source.  The service manager, persistence store and
scheduler modules are absent from the source tree (only their tests and
callers are present); those parts are modelled from the specification and
from the behaviour pinned by the test files, as indicated in each doc
comment.

The embedding of `twilio_service.py` follows the production path of the
module, i.e. with the module-level `is_test` flag false; the test-only
caller-name/file sniffing branches (which the spec's design notes exclude)
are not part of the embedded behaviour.
-/

namespace MessageMaster

/-- A value stored in a backend-specific details map.  Python dict values in
the embedded code are strings, integers, or `None`. -/
inductive DetailVal where
  | s (v : String)
  | i (v : Int)
  | null
deriving DecidableEq

/-- `SMSResponse` from `src/api/sms_service.py` (module absent from the tree;
field shape pinned by every construction site in `twilio_service.py` and by
the attribute accesses in the tests): `success`, optional `message_id`,
optional `error`, optional `details` map. -/
structure SMSResponse where
  success : Bool
  message_id : Option String := none
  error : Option String := none
  details : Option (List (String × DetailVal)) := none
deriving DecidableEq

/-- An exception raised by the Twilio backend client during a call:
either a `TwilioRestException` (with `msg`, `code`, `status`, `more_info`
attributes) or any other exception (only its string rendering). -/
inductive TwilioExc where
  | rest (msg : String) (code : Option Int) (status : Option Int) (more_info : Option String)
  | generic (msg : String)
deriving DecidableEq

/-- `str(e)` for an exception: the message carried by the exception. -/
def TwilioExc.str : TwilioExc → String
  | .rest msg _ _ _ => msg
  | .generic msg => msg

/-- `getattr(e, 'code', None) if is_twilio_exception else None`. -/
def TwilioExc.codeAttr : TwilioExc → DetailVal
  | .rest _ (some c) _ _ => .i c
  | .rest _ none _ _ => .null
  | .generic _ => .null

/-- `getattr(e, 'status', None) if is_twilio_exception else None`. -/
def TwilioExc.statusAttr : TwilioExc → DetailVal
  | .rest _ _ (some st) _ => .i st
  | .rest _ _ none _ => .null
  | .generic _ => .null

/-- The message object returned by `client.messages.create(...)`:
the attributes read by `TwilioService.send_sms` on the success path. -/
structure TwilioMsg where
  sid : String
  status : String
  price : String
  price_unit : String
  date_created : String
deriving DecidableEq

/-- The message object returned by `client.messages(message_id).fetch()`:
the attributes read by `TwilioService.get_delivery_status`. -/
structure FetchedMsg where
  status : String
  error_code : Option Int
  error_message : Option String
  date_sent : Option String
  date_updated : Option String
deriving DecidableEq

/-- The mutable credential/client state of a `TwilioService` instance:
fields `account_sid`, `auth_token`, `from_number`, `client` of
`TwilioService.__init__`.  A constructed client is modelled by the pair of
credentials it was built from (`Client(self.account_sid, self.auth_token)`). -/
structure TwilioState where
  account_sid : Option String := none
  auth_token : Option String := none
  from_number : Option String := none
  client : Option (String × String) := none
deriving DecidableEq

/-- Python truthiness of an optional string credential: `None` and the empty
string are falsy (`not all([...])` in `TwilioService.configure`). -/
def truthy : Option String → Bool
  | none => false
  | some s => !s.isEmpty

/-- `TwilioService.configure` (production path, `is_test = False`).
Mirrors the source order of effects: the three credential fields are
assigned from `credentials.get(...)` first; only then is completeness
checked, the client constructed, and `validate_credentials` consulted
(its outcome against the live backend is the parameter `validateOk`).
Returns the boolean result together with the resulting instance state. -/
def TwilioService.configure (st : TwilioState) (credentials : List (String × String))
    (validateOk : Bool) : Bool × TwilioState :=
  let sid := credentials.lookup "account_sid"
  let tok := credentials.lookup "auth_token"
  let frm := credentials.lookup "from_number"
  let st1 : TwilioState :=
    { st with account_sid := sid, auth_token := tok, from_number := frm }
  if truthy sid && truthy tok && truthy frm then
    let st2 : TwilioState := { st1 with client := some (sid.getD "", tok.getD "") }
    if validateOk then (true, st2) else (false, st2)
  else
    (false, st1)

/-- `TwilioService.send_sms` (production path, `is_test = False`).
`backend` is the outcome of the `client.messages.create(...)` call: a
created message, or the exception it raised.  Every exception is caught and
normalized; the function is total (it never propagates an exception). -/
def TwilioService.send_sms (st : TwilioState) (_recipient _message : String)
    (backend : Except TwilioExc TwilioMsg) : SMSResponse :=
  match st.client with
  | none => { success := false, error := some "Twilio service not configured" }
  | some _ =>
    match backend with
    | .ok m =>
      { success := true
        message_id := some m.sid
        details := some [("status", .s m.status), ("price", .s m.price),
          ("price_unit", .s m.price_unit), ("date_created", .s m.date_created)] }
    | .error e =>
      { success := false
        error := some ("Error: " ++ e.str)
        details := some [("code", e.codeAttr), ("status", e.statusAttr)] }

/-- The fixed `status_mapping` table of `TwilioService.get_delivery_status`. -/
def status_mapping : List (String × String) :=
  [("queued", "pending"), ("sending", "pending"), ("sent", "sent"),
   ("delivered", "delivered"), ("undelivered", "failed"), ("failed", "failed")]

/-- The dictionary returned by `TwilioService.get_delivery_status`; each
branch of the source fills a subset of these keys. -/
structure StatusResult where
  status : String
  error : Option String := none
  error_code : Option Int := none
  error_message : Option String := none
  date_sent : Option String := none
  date_updated : Option String := none
deriving DecidableEq

/-- `TwilioService.get_delivery_status` (production path, `is_test = False`).
`backend` is the outcome of `client.messages(message_id).fetch()`. -/
def TwilioService.get_delivery_status (st : TwilioState) (_message_id : String)
    (backend : Except TwilioExc FetchedMsg) : StatusResult :=
  match st.client with
  | none => { status := "unknown", error := some "Twilio service not configured" }
  | some _ =>
    match backend with
    | .ok m =>
      { status := (status_mapping.lookup m.status).getD m.status
        error_code := m.error_code
        error_message := m.error_message
        date_sent := m.date_sent
        date_updated := m.date_updated }
    | .error _ => { status := "error", error := some "API error" }

/-- C3: for every recipient and message body, and for every exception the
backend client raises during a send (network, auth, rate-limit,
malformed-recipient), `TwilioService.send_sms` does not propagate the
exception: it returns an `SMSResponse` with `success = false`, an error
message, and a details map. -/
theorem send_sms_normalizes_backend_exceptions
    (st : TwilioState) (recipient message : String) (e : TwilioExc)
    (hc : st.client.isSome) :
    (TwilioService.send_sms st recipient message (.error e)).success = false ∧
    (TwilioService.send_sms st recipient message (.error e)).error
      = some ("Error: " ++ e.str) ∧
    (TwilioService.send_sms st recipient message (.error e)).details
      = some [("code", e.codeAttr), ("status", e.statusAttr)] := by
  obtain ⟨c, hcl⟩ := Option.isSome_iff_exists.mp hc
  simp [TwilioService.send_sms, hcl]

/-- Witness for C3 at a configured instance and a concrete rate-limit-style
backend exception. -/
theorem send_sms_normalizes_backend_exceptions_witness :
    (TwilioService.send_sms
        { account_sid := some "AC123", auth_token := some "token123",
          from_number := some "+12345678901", client := some ("AC123", "token123") }
        "+15550001111" "Hello"
        (.error (.rest "Too many requests" (some 20429) (some 429) none))).success
      = false ∧
    (TwilioService.send_sms
        { account_sid := some "AC123", auth_token := some "token123",
          from_number := some "+12345678901", client := some ("AC123", "token123") }
        "+15550001111" "Hello"
        (.error (.rest "Too many requests" (some 20429) (some 429) none))).error
      = some ("Error: " ++ (TwilioExc.rest "Too many requests" (some 20429) (some 429) none).str) ∧
    (TwilioService.send_sms
        { account_sid := some "AC123", auth_token := some "token123",
          from_number := some "+12345678901", client := some ("AC123", "token123") }
        "+15550001111" "Hello"
        (.error (.rest "Too many requests" (some 20429) (some 429) none))).details
      = some [("code", (TwilioExc.rest "Too many requests" (some 20429) (some 429) none).codeAttr),
              ("status", (TwilioExc.rest "Too many requests" (some 20429) (some 429) none).statusAttr)] :=
  send_sms_normalizes_backend_exceptions _ "+15550001111" "Hello" _ (by decide)

/-- C6 counterexample: `TwilioService.configure` with a credentials map
missing `auth_token` and `from_number` returns false, but the stored
credential state is NOT unchanged — the previously stored `auth_token`
has been overwritten (the source assigns the fields before checking
completeness). -/
theorem configure_failure_mutates_state :
    (TwilioService.configure
        { account_sid := some "ACold", auth_token := some "tokenold",
          from_number := some "+15550000000", client := some ("ACold", "tokenold") }
        [("account_sid", "ACnew")] true).1 = false ∧
    ¬ (TwilioService.configure
        { account_sid := some "ACold", auth_token := some "tokenold",
          from_number := some "+15550000000", client := some ("ACold", "tokenold") }
        [("account_sid", "ACnew")] true).2.auth_token = some "tokenold" := by
  constructor
  · rfl
  · decide

/-- C6 (amended): `TwilioService.configure` returns false when a required
credential field is absent (Python-falsy) or when credential validation
fails; but on such a failure the stored credential fields have already been
overwritten with the looked-up new values, so partial credential
application IS committed. -/
theorem configure_failure_returns_false_but_commits
    (st : TwilioState) (credentials : List (String × String)) (validateOk : Bool)
    (h : (truthy (credentials.lookup "account_sid")
          && truthy (credentials.lookup "auth_token")
          && truthy (credentials.lookup "from_number")) = false ∨ validateOk = false) :
    (TwilioService.configure st credentials validateOk).1 = false ∧
    (TwilioService.configure st credentials validateOk).2.account_sid
      = credentials.lookup "account_sid" ∧
    (TwilioService.configure st credentials validateOk).2.auth_token
      = credentials.lookup "auth_token" ∧
    (TwilioService.configure st credentials validateOk).2.from_number
      = credentials.lookup "from_number" := by
  rcases h with h | h
  · simp [TwilioService.configure, h]
  · subst h
    rcases Bool.eq_false_or_eq_true
        (truthy (credentials.lookup "account_sid")
          && truthy (credentials.lookup "auth_token")
          && truthy (credentials.lookup "from_number")) with hcond | hcond <;>
      simp [TwilioService.configure, hcond]

/-- Witness for C6 (amended) at the failing credentials map of
`test_configure_missing_credentials`. -/
theorem configure_failure_returns_false_but_commits_witness :
    (TwilioService.configure
        { account_sid := some "ACold", auth_token := some "tokenold",
          from_number := some "+15550000000", client := some ("ACold", "tokenold") }
        [("account_sid", "AC123")] true).1 = false ∧
    (TwilioService.configure
        { account_sid := some "ACold", auth_token := some "tokenold",
          from_number := some "+15550000000", client := some ("ACold", "tokenold") }
        [("account_sid", "AC123")] true).2.account_sid
      = List.lookup "account_sid" [("account_sid", "AC123")] ∧
    (TwilioService.configure
        { account_sid := some "ACold", auth_token := some "tokenold",
          from_number := some "+15550000000", client := some ("ACold", "tokenold") }
        [("account_sid", "AC123")] true).2.auth_token
      = List.lookup "auth_token" [("account_sid", "AC123")] ∧
    (TwilioService.configure
        { account_sid := some "ACold", auth_token := some "tokenold",
          from_number := some "+15550000000", client := some ("ACold", "tokenold") }
        [("account_sid", "AC123")] true).2.from_number
      = List.lookup "from_number" [("account_sid", "AC123")] :=
  configure_failure_returns_false_but_commits _ _ _ (Or.inl (by decide))

/-- C7: `TwilioService.get_delivery_status` maps the backend status string
of a tracked message through the fixed `status_mapping` table (`queued` and
`sending` to `pending`, `sent` to `sent`, `delivered` to `delivered`,
`undelivered` and `failed` to `failed`), and every status string not in the
table is returned unchanged rather than producing an error. -/
theorem get_delivery_status_maps_through_table
    (st : TwilioState) (message_id : String) (m : FetchedMsg)
    (hc : st.client.isSome) :
    (m.status = "queued" ∨ m.status = "sending" →
      (TwilioService.get_delivery_status st message_id (.ok m)).status = "pending") ∧
    (m.status = "sent" →
      (TwilioService.get_delivery_status st message_id (.ok m)).status = "sent") ∧
    (m.status = "delivered" →
      (TwilioService.get_delivery_status st message_id (.ok m)).status = "delivered") ∧
    (m.status = "undelivered" ∨ m.status = "failed" →
      (TwilioService.get_delivery_status st message_id (.ok m)).status = "failed") ∧
    (status_mapping.lookup m.status = none →
      (TwilioService.get_delivery_status st message_id (.ok m)).status = m.status) := by
  obtain ⟨c, hcl⟩ := Option.isSome_iff_exists.mp hc
  have hr : (TwilioService.get_delivery_status st message_id (.ok m)).status
      = (status_mapping.lookup m.status).getD m.status := by
    simp [TwilioService.get_delivery_status, hcl]
  refine ⟨?_, ?_, ?_, ?_, ?_⟩ <;> intro h
  · rcases h with h | h <;> rw [hr, h] <;> decide
  · rw [hr, h]; decide
  · rw [hr, h]; decide
  · rcases h with h | h <;> rw [hr, h] <;> decide
  · rw [hr, h]; rfl

/-- Witness for C7 at a configured instance: a backend message with status
`queued` is mapped to `pending`, and one with status `accepted` (outside
the lookup table) is passed through unchanged. -/
theorem get_delivery_status_maps_through_table_witness :
    (TwilioService.get_delivery_status
        { account_sid := some "AC123", auth_token := some "token123",
          from_number := some "+12345678901", client := some ("AC123", "token123") }
        "SM123" (.ok ⟨"queued", none, none, none, none⟩)).status = "pending" ∧
    (TwilioService.get_delivery_status
        { account_sid := some "AC123", auth_token := some "token123",
          from_number := some "+12345678901", client := some ("AC123", "token123") }
        "SM123" (.ok ⟨"accepted", none, none, none, none⟩)).status
      = FetchedMsg.status ⟨"accepted", none, none, none, none⟩ :=
  ⟨(get_delivery_status_maps_through_table _ "SM123"
      ⟨"queued", none, none, none, none⟩ (by decide)).1 (Or.inl rfl),
   (get_delivery_status_maps_through_table _ "SM123"
      ⟨"accepted", none, none, none, none⟩ (by decide)).2.2.2.2 (by decide)⟩

/-! ## Service Manager (`src/api/service_manager.py`, absent from the tree)

The `SMSServiceManager` module is not present in the source tree; only its
test file `src/tests/test_service_manager.py` is.  The definitions below
are modelled from the specification's Service Manager contract (§4.2)
together with the observable behaviour pinned by that test file. -/

/-- Modelled from the spec: the `MessageHistoryRecord` written for every
dispatch attempt (spec §3); the missing `src/models/database.py` exposes it
through `save_message_history(recipient, message, service, status, ...)` as
called in `test_service_manager.py` and `test_database.py`. -/
structure MessageHistoryRecord where
  recipient : String
  message : String
  service : String
  status : String
  message_id : Option String := none
  details : Option (List (String × DetailVal)) := none
deriving DecidableEq

/-- Modelled from the spec: a loaded SMS service (Provider) held by the
missing `SMSServiceManager`.  `sendGives` is the provider's `send_sms`
behaviour for a given recipient/message: a returned `SMSResponse`, or the
exception it raises (caught by the manager per
`test_send_sms_with_exception`). -/
structure Provider where
  name : String
  configured : Bool
  sendGives : String → String → Except String SMSResponse

/-- Modelled from the spec: the state owned by the missing
`SMSServiceManager` — its loaded services, the active service, and the
persistence effects it can perform (history writes); `provider_calls` logs
every invocation of a provider's send operation. -/
structure ManagerState where
  services : List (String × Provider)
  active_service : Option String
  history : List MessageHistoryRecord
  provider_calls : List (String × String × String)

/-- Modelled from the spec: `get_service_by_name` of the missing
`SMSServiceManager` (returns `None` for an unknown name, per
`test_get_service_by_name`). -/
def SMSServiceManager.get_service_by_name (st : ManagerState) (name : String) :
    Option Provider :=
  st.services.lookup name

/-- Modelled from the spec: target-service resolution of the missing
`SMSServiceManager.send_sms` — the named override if present, else the
active service (spec §4.2). -/
def resolveService (st : ManagerState) (service_name : Option String) :
    Option (String × Provider) :=
  match service_name with
  | some n => (st.services.lookup n).map (fun p => (n, p))
  | none =>
    match st.active_service with
    | some n => (st.services.lookup n).map (fun p => (n, p))
    | none => none

/-- Modelled from the spec: `send_sms` of the missing `SMSServiceManager`.
When no service is resolvable it returns the sentinel failure response
without touching any state (`test_send_sms_with_no_service`).  When a
service is resolved it invokes that provider's send and then writes one
message-history record itself — with status `sent`/`failed` from the
response, or `error` when the provider raised — as pinned by
`test_send_sms_with_active_service`, `test_send_sms_with_failed_response`
and `test_send_sms_with_exception` (each asserts
`db.save_message_history.assert_called_once()` against the manager). -/
def SMSServiceManager.send_sms (st : ManagerState) (recipient message : String)
    (service_name : Option String) : SMSResponse × ManagerState :=
  match resolveService st service_name with
  | none => ({ success := false, error := some "No SMS service configured" }, st)
  | some (n, p) =>
    let st1 : ManagerState :=
      { st with provider_calls := st.provider_calls ++ [(n, recipient, message)] }
    match p.sendGives recipient message with
    | .ok resp =>
      (resp,
       { st1 with history := st1.history ++
          [{ recipient := recipient, message := message, service := n,
             status := if resp.success then "sent" else "failed",
             message_id := resp.message_id, details := resp.details }] })
    | .error e =>
      ({ success := false, error := some e },
       { st1 with history := st1.history ++
          [{ recipient := recipient, message := message, service := n,
             status := "error" }] })

/-- Modelled from the spec: `set_active_service` of the missing
`SMSServiceManager` — fails (returns false, state untouched) if the name is
unknown or the service unconfigured; otherwise flips the active flag
(spec §4.2 and scenario 5, `test_set_active_service`). -/
def SMSServiceManager.set_active_service (st : ManagerState) (name : String) :
    Bool × ManagerState :=
  match st.services.lookup name with
  | none => (false, st)
  | some p =>
    if p.configured then (true, { st with active_service := some name })
    else (false, st)

/-- C2 counterexample: on a resolved, successful send, the Service
Manager's `send_sms` itself writes to message history — the history list
after the call differs from the history before it, refuting "the Service
Manager's send operation performs no history write". -/
theorem send_sms_writes_history_itself :
    ¬ ((SMSServiceManager.send_sms
          { services := [("twilio",
              { name := "Twilio", configured := true,
                sendGives := fun _ _ => .ok
                  { success := true, message_id := some "msg123",
                    details := some [("status", .s "sent")] } })],
            active_service := some "twilio", history := [], provider_calls := [] }
          "+12345678901" "Test message" none).2.history
        = ManagerState.history
          { services := [("twilio",
              { name := "Twilio", configured := true,
                sendGives := fun _ _ => .ok
                  { success := true, message_id := some "msg123",
                    details := some [("status", .s "sent")] } })],
            active_service := some "twilio", history := [], provider_calls := [] }) := by
  decide

/-- C2 (amended): for every resolved send attempt (success, failure, or
provider exception), the Service Manager's `send_sms` itself appends
exactly one `MessageHistoryRecord`, leaving the earlier records unchanged;
the history write is not left to the caller. -/
theorem send_sms_appends_one_history_record
    (st : ManagerState) (recipient message : String) (service_name : Option String)
    (n : String) (p : Provider)
    (hres : resolveService st service_name = some (n, p)) :
    (SMSServiceManager.send_sms st recipient message service_name).2.history.length
      = st.history.length + 1 ∧
    (SMSServiceManager.send_sms st recipient message service_name).2.history.take
        st.history.length
      = st.history := by
  unfold SMSServiceManager.send_sms
  rw [hres]
  dsimp only
  cases p.sendGives recipient message <;> simp [List.take_left]

/-- Witness for C2 (amended) at a concrete manager whose active provider
answers successfully. -/
theorem send_sms_appends_one_history_record_witness :
    (SMSServiceManager.send_sms
        { services := [("twilio",
            { name := "Twilio", configured := true,
              sendGives := fun _ _ => .ok
                { success := true, message_id := some "msg123",
                  details := some [("status", .s "sent")] } })],
          active_service := some "twilio",
          history := [{ recipient := "+10000000000", message := "earlier",
                        service := "twilio", status := "sent" }],
          provider_calls := [] }
        "+12345678901" "Test message" none).2.history.length
      = List.length
          [({ recipient := "+10000000000", message := "earlier",
              service := "twilio", status := "sent" } : MessageHistoryRecord)] + 1 ∧
    (SMSServiceManager.send_sms
        { services := [("twilio",
            { name := "Twilio", configured := true,
              sendGives := fun _ _ => .ok
                { success := true, message_id := some "msg123",
                  details := some [("status", .s "sent")] } })],
          active_service := some "twilio",
          history := [{ recipient := "+10000000000", message := "earlier",
                        service := "twilio", status := "sent" }],
          provider_calls := [] }
        "+12345678901" "Test message" none).2.history.take
        (List.length
          [({ recipient := "+10000000000", message := "earlier",
              service := "twilio", status := "sent" } : MessageHistoryRecord)])
      = [{ recipient := "+10000000000", message := "earlier",
           service := "twilio", status := "sent" }] :=
  send_sms_appends_one_history_record _ "+12345678901" "Test message" none "twilio" _ rfl

/-- C5 counterexample: with no resolvable service, the sentinel error
string produced by the modelled manager is `No SMS service configured`
(pinned by `test_send_sms_with_no_service`), not the claim's literal
`no provider configured`. -/
theorem send_sms_no_service_error_string :
    ¬ ((SMSServiceManager.send_sms
          { services := [], active_service := none, history := [], provider_calls := [] }
          "+12345678901" "Test message" none).1.error = some "no provider configured") := by
  decide

/-- C5 (amended): when no service is resolvable (no override and no active
service), `send_sms` returns `success = false` with error
`No SMS service configured`, and the manager state is returned unchanged —
in particular no provider send is invoked (`provider_calls` untouched) and
no history record is written. -/
theorem send_sms_without_provider_returns_sentinel
    (st : ManagerState) (recipient message : String) (service_name : Option String)
    (hres : resolveService st service_name = none) :
    (SMSServiceManager.send_sms st recipient message service_name).1.success = false ∧
    (SMSServiceManager.send_sms st recipient message service_name).1.error
      = some "No SMS service configured" ∧
    (SMSServiceManager.send_sms st recipient message service_name).2 = st := by
  unfold SMSServiceManager.send_sms
  rw [hres]
  exact ⟨rfl, rfl, rfl⟩

/-- Witness for C5 (amended) at a manager with zero configured services. -/
theorem send_sms_without_provider_returns_sentinel_witness :
    (SMSServiceManager.send_sms
        { services := [], active_service := none, history := [], provider_calls := [] }
        "+12345678901" "Test message" none).1.success = false ∧
    (SMSServiceManager.send_sms
        { services := [], active_service := none, history := [], provider_calls := [] }
        "+12345678901" "Test message" none).1.error
      = some "No SMS service configured" ∧
    (SMSServiceManager.send_sms
        { services := [], active_service := none, history := [], provider_calls := [] }
        "+12345678901" "Test message" none).2
      = { services := [], active_service := none, history := [], provider_calls := [] } :=
  send_sms_without_provider_returns_sentinel _ "+12345678901" "Test message" none rfl

/-- C8: `set_active_service` returns false for an unknown or unconfigured
name and leaves the whole manager state (in particular the previously
active service) unchanged; for a known, configured name it returns true
and flips the active service to that name, touching nothing else. -/
theorem set_active_service_flips_only_when_configured
    (st : ManagerState) (name : String) :
    ((st.services.lookup name).all (fun p => !p.configured) = true →
      SMSServiceManager.set_active_service st name = (false, st)) ∧
    ((st.services.lookup name).any (fun p => p.configured) = true →
      (SMSServiceManager.set_active_service st name).1 = true ∧
      (SMSServiceManager.set_active_service st name).2.active_service = some name ∧
      (SMSServiceManager.set_active_service st name).2.services = st.services ∧
      (SMSServiceManager.set_active_service st name).2.history = st.history ∧
      (SMSServiceManager.set_active_service st name).2.provider_calls
        = st.provider_calls) := by
  unfold SMSServiceManager.set_active_service
  cases hl : st.services.lookup name with
  | none =>
    constructor
    · intro _; rfl
    · intro h; simp [Option.any] at h
  | some p =>
    cases hp : p.configured with
    | false =>
      constructor
      · intro _; simp [hp]
      · intro h; simp [Option.any, hp] at h
    | true =>
      constructor
      · intro h; simp [Option.all, hp] at h
      · intro _; simp [hp]

/-- Witness for C8: the unconfigured service `textbelt` is refused with the
state unchanged, while the configured `twilio` becomes active. -/
theorem set_active_service_flips_only_when_configured_witness :
    SMSServiceManager.set_active_service
        { services := [("twilio", { name := "Twilio", configured := true,
                                    sendGives := fun _ _ => .error "unused" }),
                       ("textbelt", { name := "TextBelt", configured := false,
                                      sendGives := fun _ _ => .error "unused" })],
          active_service := some "twilio", history := [], provider_calls := [] }
        "textbelt"
      = (false,
         { services := [("twilio", { name := "Twilio", configured := true,
                                     sendGives := fun _ _ => .error "unused" }),
                        ("textbelt", { name := "TextBelt", configured := false,
                                       sendGives := fun _ _ => .error "unused" })],
           active_service := some "twilio", history := [], provider_calls := [] }) ∧
    (SMSServiceManager.set_active_service
        { services := [("twilio", { name := "Twilio", configured := true,
                                    sendGives := fun _ _ => .error "unused" })],
          active_service := none, history := [], provider_calls := [] }
        "twilio").1 = true ∧
    (SMSServiceManager.set_active_service
        { services := [("twilio", { name := "Twilio", configured := true,
                                    sendGives := fun _ _ => .error "unused" })],
          active_service := none, history := [], provider_calls := [] }
        "twilio").2.active_service = some "twilio" :=
  ⟨(set_active_service_flips_only_when_configured _ "textbelt").1 (by decide),
   ((set_active_service_flips_only_when_configured _ "twilio").2 (by decide)).1,
   ((set_active_service_flips_only_when_configured _ "twilio").2 (by decide)).2.1⟩

/-! ## Persistence Store (`src/models/database.py`, absent from the tree)

The `Database` module is not present in the source tree; only its test file
`src/tests/test_database.py` is.  The definitions below are modelled from
the specification's Persistence Store contract (§4.3) together with the
behaviour pinned by that test file: every underlying storage failure
(modelled by the `fail` flag, standing for `sqlite3.Error` raised by the
connection) is caught inside the operation and surfaced as a
false / empty / zero sentinel with the stored data untouched. -/

/-- Modelled from the spec: a scheduled-message row (spec §3), with the
column names used by `test_database.py` (`recurring`,
`recurring_interval` holding the opaque recurrence payload, timestamps as
sqlite datetime strings). -/
structure ScheduledMessage where
  id : Nat
  recipient : String
  message : String
  scheduled_time : String
  service : Option String := none
  recurring : Option String := none
  recurring_interval : Option String := none
  status : String := "pending"
deriving DecidableEq

/-- Modelled from the spec: the state of the missing `Database` — the two
logical record sets (scheduled messages and append-only history), the next
row id, and whether the underlying storage layer raises on access. -/
structure DbState where
  scheduled : List ScheduledMessage
  history : List MessageHistoryRecord
  next_id : Nat := 1
  fail : Bool := false
deriving DecidableEq

/-- Modelled from the spec: the optional field arguments of the missing
`Database.update_scheduled_message(message_id, ...)` as called in
`test_update_scheduled_message`; an absent field leaves the column
untouched. -/
structure UpdateFields where
  recipient : Option String := none
  message : Option String := none
  scheduled_time : Option String := none
  service : Option String := none
  recurring : Option String := none
  recurring_interval : Option String := none
  status : Option String := none
deriving DecidableEq

/-- Apply an `UpdateFields` record to one scheduled-message row. -/
def applyFields (f : UpdateFields) (m : ScheduledMessage) : ScheduledMessage :=
  { m with
    recipient := f.recipient.getD m.recipient
    message := f.message.getD m.message
    scheduled_time := f.scheduled_time.getD m.scheduled_time
    service := match f.service with | some s => some s | none => m.service
    recurring := match f.recurring with | some s => some s | none => m.recurring
    recurring_interval :=
      match f.recurring_interval with | some s => some s | none => m.recurring_interval
    status := f.status.getD m.status }

/-- Modelled from the spec: `Database.save_message_history` (appendHistory);
false sentinel on storage failure (`test_message_history_error_handling`). -/
def Database.save_message_history (db : DbState)
    (recipient message service status : String) : Bool × DbState :=
  if db.fail then (false, db)
  else
    (true,
     { db with history := db.history ++
        [{ recipient := recipient, message := message,
           service := service, status := status }] })

/-- Modelled from the spec: `Database.get_message_history`;
empty sentinel on storage failure. -/
def Database.get_message_history (db : DbState) : List MessageHistoryRecord :=
  if db.fail then [] else db.history

/-- Modelled from the spec: `Database.save_scheduled_message`; returns the
new row id, or the 0 sentinel on storage failure
(`test_scheduled_messages_error_handling` mocks `lastrowid = 0`). -/
def Database.save_scheduled_message (db : DbState)
    (recipient message scheduled_time : String)
    (service recurring recurring_interval : Option String) : Nat × DbState :=
  if db.fail then (0, db)
  else
    (db.next_id,
     { db with
        scheduled := db.scheduled ++
          [{ id := db.next_id, recipient := recipient, message := message,
             scheduled_time := scheduled_time, service := service,
             recurring := recurring, recurring_interval := recurring_interval,
             status := "pending" }]
        next_id := db.next_id + 1 })

/-- Modelled from the spec: `Database.get_scheduled_messages`;
empty sentinel on storage failure. -/
def Database.get_scheduled_messages (db : DbState) : List ScheduledMessage :=
  if db.fail then [] else db.scheduled

/-- Modelled from the spec: `Database.get_pending_scheduled_messages` —
the `Pending` rows; empty sentinel on storage failure. -/
def Database.get_pending_scheduled_messages (db : DbState) : List ScheduledMessage :=
  if db.fail then [] else db.scheduled.filter (fun m => m.status == "pending")

/-- Modelled from the spec: `Database.get_due_scheduled_messages` /
`dueMessages(asOf)` — all `Pending` rows with `scheduledAt <= asOf`
(sqlite datetime strings compare lexicographically), ordered by
`scheduledAt` ascending with ties in insertion order (stable sort);
empty sentinel on storage failure. -/
def Database.get_due_scheduled_messages (db : DbState) (asOf : String) :
    List ScheduledMessage :=
  if db.fail then []
  else
    (db.scheduled.filter
        (fun m => m.status == "pending" && m.scheduled_time ≤ asOf)).mergeSort
      (fun a b => a.scheduled_time ≤ b.scheduled_time)

/-- Modelled from the spec: `Database.update_scheduled_message_status`
(updateStatus); false sentinel on storage failure. -/
def Database.update_scheduled_message_status (db : DbState)
    (message_id : Nat) (status : String) : Bool × DbState :=
  if db.fail then (false, db)
  else
    (true,
     { db with
        scheduled := db.scheduled.map (fun m =>
          if m.id == message_id then { m with status := status } else m) })

/-- Modelled from the spec: `Database.delete_scheduled_message` (cancel);
false sentinel on storage failure. -/
def Database.delete_scheduled_message (db : DbState) (message_id : Nat) :
    Bool × DbState :=
  if db.fail then (false, db)
  else (true, { db with scheduled := db.scheduled.filter (fun m => m.id != message_id) })

/-- Modelled from the spec: `Database.update_scheduled_message` — a sqlite
`UPDATE ... WHERE id = ?` followed by a commit: rows matching the id get
the given fields, the result is true whenever the statement executed
(whether or not any row matched, per
`test_update_scheduled_message_not_found`), and false only on storage
failure (`test_update_scheduled_message_error`). -/
def Database.update_scheduled_message (db : DbState) (message_id : Nat)
    (f : UpdateFields) : Bool × DbState :=
  if db.fail then (false, db)
  else
    (true,
     { db with
        scheduled := db.scheduled.map (fun m =>
          if m.id == message_id then applyFields f m else m) })

/-- C9: every Persistence Store operation catches an underlying storage
failure and returns the sentinel for its result type — false for boolean
operations, the empty list for queries, 0 for the id-returning insert —
with the stored data unchanged, so a storage error never propagates to the
Scheduler's poll loop. -/
theorem database_operations_return_sentinels_on_failure
    (db : DbState) (recipient message service status scheduled_time asOf : String)
    (svc rec rin : Option String) (message_id : Nat) (f : UpdateFields)
    (hfail : db.fail = true) :
    Database.save_message_history db recipient message service status = (false, db) ∧
    Database.get_message_history db = [] ∧
    Database.save_scheduled_message db recipient message scheduled_time svc rec rin
      = (0, db) ∧
    Database.get_scheduled_messages db = [] ∧
    Database.get_pending_scheduled_messages db = [] ∧
    Database.get_due_scheduled_messages db asOf = [] ∧
    Database.update_scheduled_message_status db message_id status = (false, db) ∧
    Database.delete_scheduled_message db message_id = (false, db) ∧
    Database.update_scheduled_message db message_id f = (false, db) := by
  refine ⟨?_, ?_, ?_, ?_, ?_, ?_, ?_, ?_, ?_⟩ <;>
    simp [Database.save_message_history, Database.get_message_history,
      Database.save_scheduled_message, Database.get_scheduled_messages,
      Database.get_pending_scheduled_messages, Database.get_due_scheduled_messages,
      Database.update_scheduled_message_status, Database.delete_scheduled_message,
      Database.update_scheduled_message, hfail]

/-- Witness for C9 at a concrete store whose storage layer raises. -/
theorem database_operations_return_sentinels_on_failure_witness :
    Database.save_message_history
        { scheduled := [{ id := 1, recipient := "+12125551234", message := "Test",
                          scheduled_time := "2023-12-31 12:00:00" }],
          history := [], next_id := 2, fail := true }
        "+12125551234" "Test" "twilio" "completed"
      = (false,
         { scheduled := [{ id := 1, recipient := "+12125551234", message := "Test",
                           scheduled_time := "2023-12-31 12:00:00" }],
           history := [], next_id := 2, fail := true }) ∧
    Database.get_message_history
        { scheduled := [{ id := 1, recipient := "+12125551234", message := "Test",
                          scheduled_time := "2023-12-31 12:00:00" }],
          history := [], next_id := 2, fail := true } = [] ∧
    Database.save_scheduled_message
        { scheduled := [{ id := 1, recipient := "+12125551234", message := "Test",
                          scheduled_time := "2023-12-31 12:00:00" }],
          history := [], next_id := 2, fail := true }
        "+12125551234" "Test" "2023-12-31 12:00:00" none none none
      = (0,
         { scheduled := [{ id := 1, recipient := "+12125551234", message := "Test",
                           scheduled_time := "2023-12-31 12:00:00" }],
           history := [], next_id := 2, fail := true }) ∧
    Database.get_scheduled_messages
        { scheduled := [{ id := 1, recipient := "+12125551234", message := "Test",
                          scheduled_time := "2023-12-31 12:00:00" }],
          history := [], next_id := 2, fail := true } = [] ∧
    Database.get_pending_scheduled_messages
        { scheduled := [{ id := 1, recipient := "+12125551234", message := "Test",
                          scheduled_time := "2023-12-31 12:00:00" }],
          history := [], next_id := 2, fail := true } = [] ∧
    Database.get_due_scheduled_messages
        { scheduled := [{ id := 1, recipient := "+12125551234", message := "Test",
                          scheduled_time := "2023-12-31 12:00:00" }],
          history := [], next_id := 2, fail := true } "2024-01-01 00:00:00" = [] ∧
    Database.update_scheduled_message_status
        { scheduled := [{ id := 1, recipient := "+12125551234", message := "Test",
                          scheduled_time := "2023-12-31 12:00:00" }],
          history := [], next_id := 2, fail := true } 1 "completed"
      = (false,
         { scheduled := [{ id := 1, recipient := "+12125551234", message := "Test",
                           scheduled_time := "2023-12-31 12:00:00" }],
           history := [], next_id := 2, fail := true }) ∧
    Database.delete_scheduled_message
        { scheduled := [{ id := 1, recipient := "+12125551234", message := "Test",
                          scheduled_time := "2023-12-31 12:00:00" }],
          history := [], next_id := 2, fail := true } 1
      = (false,
         { scheduled := [{ id := 1, recipient := "+12125551234", message := "Test",
                           scheduled_time := "2023-12-31 12:00:00" }],
           history := [], next_id := 2, fail := true }) ∧
    Database.update_scheduled_message
        { scheduled := [{ id := 1, recipient := "+12125551234", message := "Test",
                          scheduled_time := "2023-12-31 12:00:00" }],
          history := [], next_id := 2, fail := true } 1 { message := some "Updated" }
      = (false,
         { scheduled := [{ id := 1, recipient := "+12125551234", message := "Test",
                           scheduled_time := "2023-12-31 12:00:00" }],
           history := [], next_id := 2, fail := true }) :=
  database_operations_return_sentinels_on_failure _ "+12125551234" "Test" "twilio"
    "completed" "2023-12-31 12:00:00" "2024-01-01 00:00:00" none none none 1
    { message := some "Updated" } rfl

/-- C10: updating a scheduled message whose id does not exist still returns
true (the UPDATE executes, matching zero rows), while the store's contents
are unchanged. -/
theorem update_scheduled_message_not_found_returns_true
    (db : DbState) (message_id : Nat) (f : UpdateFields)
    (hfail : db.fail = false)
    (hid : ∀ m ∈ db.scheduled, m.id ≠ message_id) :
    Database.update_scheduled_message db message_id f = (true, db) := by
  have hmap : db.scheduled.map
      (fun m => if m.id == message_id then applyFields f m else m) = db.scheduled := by
    have h1 : ∀ m ∈ db.scheduled,
        (if m.id == message_id then applyFields f m else m) = m := by
      intro m hm
      simp [hid m hm]
    calc db.scheduled.map (fun m => if m.id == message_id then applyFields f m else m)
        = db.scheduled.map id := List.map_congr_left h1
      _ = db.scheduled := List.map_id db.scheduled
  unfold Database.update_scheduled_message
  rw [hmap, if_neg (by simp [hfail])]

/-- Witness for C10 at a concrete store with one row and the absent id 9999
of `test_update_scheduled_message_not_found`. -/
theorem update_scheduled_message_not_found_returns_true_witness :
    Database.update_scheduled_message
        { scheduled := [{ id := 1, recipient := "+12125551234",
                          message := "Original message",
                          scheduled_time := "2023-12-31 12:00:00" }],
          history := [], next_id := 2, fail := false }
        9999 { message := some "Updated message" }
      = (true,
         { scheduled := [{ id := 1, recipient := "+12125551234",
                           message := "Original message",
                           scheduled_time := "2023-12-31 12:00:00" }],
           history := [], next_id := 2, fail := false }) :=
  update_scheduled_message_not_found_returns_true _ 9999 _ rfl (by decide)

/-! ## Scheduler recurrence advance (`src/automation/scheduler.py`, absent)

The `MessageScheduler` module is not present in the source tree (it is
imported by `src/gui/app.py` as `src.automation.scheduler`).  Its
recurrence-advance algorithm is modelled from the specification (§4.4):
the next occurrence is computed from the previous `scheduledAt` — never
from the current time — with a proleptic Gregorian calendar at second
precision. -/

/-- Gregorian leap-year rule. -/
def isLeapYear (y : Nat) : Bool :=
  (y % 4 == 0 && y % 100 != 0) || y % 400 == 0

/-- Days in month `m` (1–12) given the leap flag of the year. -/
def daysInMonthFlag (leap : Bool) (m : Nat) : Nat :=
  if m = 2 then (if leap then 29 else 28)
  else if m = 4 || m = 6 || m = 9 || m = 11 then 30
  else 31

/-- Days in month `m` of year `y`. -/
def daysInMonth (y m : Nat) : Nat := daysInMonthFlag (isLeapYear y) m

/-- An absolute timestamp at second precision (spec §3 `scheduledAt`),
as a proleptic Gregorian calendar date plus seconds-of-day. -/
structure DateTime where
  year : Nat
  month : Nat
  day : Nat
  secOfDay : Nat
deriving DecidableEq

/-- A well-formed calendar timestamp. -/
def ValidDT (dt : DateTime) : Prop :=
  1 ≤ dt.year ∧ 1 ≤ dt.month ∧ dt.month ≤ 12 ∧ 1 ≤ dt.day ∧
  dt.day ≤ daysInMonth dt.year dt.month ∧ dt.secOfDay < 86400

instance : DecidablePred ValidDT := fun dt => by
  unfold ValidDT
  infer_instance

/-- The calendar day after `dt` (same time of day). -/
def nextDay (dt : DateTime) : DateTime :=
  if dt.day < daysInMonth dt.year dt.month then { dt with day := dt.day + 1 }
  else if dt.month < 12 then { dt with month := dt.month + 1, day := 1 }
  else { year := dt.year + 1, month := 1, day := 1, secOfDay := dt.secOfDay }

/-- `dt` advanced by `n` calendar days. -/
def addDays (dt : DateTime) : Nat → DateTime
  | 0 => dt
  | n + 1 => nextDay (addDays dt n)

/-- One calendar month after `dt`, the day-of-month clamped to the last
valid day of the target month (spec §4.4 Monthly). -/
def nextMonthClamped (dt : DateTime) : DateTime :=
  if dt.month = 12 then
    { year := dt.year + 1, month := 1,
      day := min dt.day (daysInMonth (dt.year + 1) 1), secOfDay := dt.secOfDay }
  else
    { year := dt.year, month := dt.month + 1,
      day := min dt.day (daysInMonth dt.year (dt.month + 1)), secOfDay := dt.secOfDay }

/-- Cumulative day count of the first `m` months for a leap flag. -/
def cumDaysFlag (leap : Bool) : Nat → Nat
  | 0 => 0
  | m + 1 => cumDaysFlag leap m + daysInMonthFlag leap (m + 1)

/-- Number of leap years in `1..n`. -/
def leapCount : Nat → Nat
  | 0 => 0
  | n + 1 => leapCount n + (if isLeapYear (n + 1) then 1 else 0)

/-- Rata-die style day index of a calendar date. -/
def dayNumber (dt : DateTime) : Nat :=
  365 * (dt.year - 1) + leapCount (dt.year - 1)
    + cumDaysFlag (isLeapYear dt.year) (dt.month - 1) + (dt.day - 1)

/-- Linear timestamp in seconds of a `DateTime`. -/
def toSec (dt : DateTime) : Nat := 86400 * dayNumber dt + dt.secOfDay

theorem daysInMonthFlag_pos (leap : Bool) (m : Nat) : 1 ≤ daysInMonthFlag leap m := by
  unfold daysInMonthFlag
  split
  · split <;> omega
  · split <;> omega

theorem cumDaysFlag_twelve (leap : Bool) :
    cumDaysFlag leap 12 = if leap then 366 else 365 := by
  cases leap <;> decide

theorem nextDay_secOfDay (dt : DateTime) : (nextDay dt).secOfDay = dt.secOfDay := by
  unfold nextDay
  split
  · rfl
  · split <;> rfl

theorem validDT_nextDay (dt : DateTime) (h : ValidDT dt) : ValidDT (nextDay dt) := by
  obtain ⟨hy, hm1, hm12, hd1, hdm, hs⟩ := h
  unfold ValidDT nextDay
  split
  · dsimp
    refine ⟨hy, hm1, hm12, by omega, by omega, hs⟩
  · split
    · dsimp
      refine ⟨hy, by omega, by omega, by omega, ?_, hs⟩
      unfold daysInMonth
      exact daysInMonthFlag_pos _ _
    · dsimp
      refine ⟨by omega, by omega, by omega, by omega, ?_, hs⟩
      unfold daysInMonth
      exact daysInMonthFlag_pos _ _

theorem dayNumber_nextDay (dt : DateTime) (h : ValidDT dt) :
    dayNumber (nextDay dt) = dayNumber dt + 1 := by
  obtain ⟨hy, hm1, hm12, hd1, hdm, hs⟩ := h
  unfold nextDay
  by_cases h1 : dt.day < daysInMonth dt.year dt.month
  · rw [if_pos h1]
    unfold dayNumber
    dsimp
    omega
  · rw [if_neg h1]
    have hd : dt.day = daysInMonth dt.year dt.month := by omega
    unfold daysInMonth at hd
    by_cases h2 : dt.month < 12
    · rw [if_pos h2]
      unfold dayNumber
      dsimp
      obtain ⟨k, hk⟩ : ∃ k, dt.month = k + 1 := ⟨dt.month - 1, by omega⟩
      rw [hk] at hd ⊢
      simp only [Nat.add_sub_cancel]
      have hcum : cumDaysFlag (isLeapYear dt.year) (k + 1)
          = cumDaysFlag (isLeapYear dt.year) k
            + daysInMonthFlag (isLeapYear dt.year) (k + 1) := rfl
      have hpos := daysInMonthFlag_pos (isLeapYear dt.year) (k + 1)
      omega
    · rw [if_neg h2]
      have hm : dt.month = 12 := by omega
      unfold dayNumber
      dsimp
      rw [hm] at hd ⊢
      obtain ⟨k, hk⟩ : ∃ k, dt.year = k + 1 := ⟨dt.year - 1, by omega⟩
      rw [hk] at hd ⊢
      simp only [Nat.add_sub_cancel, Nat.sub_self]
      have hzero : cumDaysFlag (isLeapYear (k + 1 + 1)) 0 = 0 := rfl
      have h121 : (12 : Nat) - 1 = 11 := rfl
      rw [h121]
      cases hleap : isLeapYear (k + 1) with
      | false =>
        rw [hleap] at hd
        have hdim : daysInMonthFlag false 12 = 31 := rfl
        have hc : cumDaysFlag false 11 = 334 := by decide
        have hlc2 : leapCount (k + 1) = leapCount k := by
          have hstep : leapCount (k + 1)
              = leapCount k + (if isLeapYear (k + 1) then 1 else 0) := rfl
          rw [hstep, hleap]
          simp
        omega
      | true =>
        rw [hleap] at hd
        have hdim : daysInMonthFlag true 12 = 31 := rfl
        have hc : cumDaysFlag true 11 = 335 := by decide
        have hlc2 : leapCount (k + 1) = leapCount k + 1 := by
          have hstep : leapCount (k + 1)
              = leapCount k + (if isLeapYear (k + 1) then 1 else 0) := rfl
          rw [hstep, hleap]
          simp
        omega

theorem validDT_addDays (dt : DateTime) (n : Nat) (h : ValidDT dt) :
    ValidDT (addDays dt n) := by
  induction n with
  | zero => exact h
  | succ k ih => exact validDT_nextDay _ ih

theorem toSec_addDays (dt : DateTime) (n : Nat) (h : ValidDT dt) :
    toSec (addDays dt n) = toSec dt + n * 86400 := by
  induction n with
  | zero => simp [addDays]
  | succ k ih =>
    have hvk : ValidDT (addDays dt k) := validDT_addDays dt k h
    show toSec (nextDay (addDays dt k)) = toSec dt + (k + 1) * 86400
    unfold toSec at ih ⊢
    rw [dayNumber_nextDay _ hvk, nextDay_secOfDay]
    omega

/-- Modelled from the spec: the recurrence rule of a scheduled message
(spec §3; the source GUI offers Once/Daily/Weekly/Monthly/Custom). -/
inductive Recurrence where
  | once
  | daily
  | weekly
  | monthly
  | custom (intervalDays : Nat)
deriving DecidableEq

/-- Modelled from the spec: the recurrence-advance algorithm of the missing
`MessageScheduler` (spec §4.4) — the next occurrence from the previous
`scheduledAt` and the current poll time `now` (which, per the spec, the
computation must not depend on): Daily adds 1 day, Weekly 7 days,
Custom(n) n days, Monthly one calendar month clamped to the last valid day
of the target month; a non-recurring message has no next occurrence. -/
def computeNextOccurrence (rule : Recurrence) (previousScheduledAt _now : DateTime) :
    Option DateTime :=
  match rule with
  | .once => none
  | .daily => some (addDays previousScheduledAt 1)
  | .weekly => some (addDays previousScheduledAt 7)
  | .monthly => some (nextMonthClamped previousScheduledAt)
  | .custom n => some (addDays previousScheduledAt n)

/-- C4: the next occurrence of a recurring message is computed from the
previous `scheduledAt`, independent of how late the poll cycle ran (the
result does not depend on `now`); Daily advances the linear timestamp by
exactly 86400 s, Weekly by exactly 7·86400 s, Custom(n) by exactly
n·86400 s; Monthly advances by one calendar month, keeping the time of day
and clamping the day-of-month to the last valid day of the target month
(`min` with `daysInMonth`, so Jan 31 advances to Feb 28 or Feb 29). -/
theorem recurrence_advances_from_previous_occurrence
    (rule : Recurrence) (prev now now' : DateTime) (n : Nat)
    (hv : ValidDT prev) :
    computeNextOccurrence rule prev now = computeNextOccurrence rule prev now' ∧
    (computeNextOccurrence .daily prev now).map toSec
      = some (toSec prev + 86400) ∧
    (computeNextOccurrence .weekly prev now).map toSec
      = some (toSec prev + 7 * 86400) ∧
    (computeNextOccurrence (.custom n) prev now).map toSec
      = some (toSec prev + n * 86400) ∧
    (computeNextOccurrence .monthly prev now).map DateTime.year
      = some (if prev.month = 12 then prev.year + 1 else prev.year) ∧
    (computeNextOccurrence .monthly prev now).map DateTime.month
      = some (if prev.month = 12 then 1 else prev.month + 1) ∧
    (computeNextOccurrence .monthly prev now).map DateTime.day
      = some (min prev.day
          (daysInMonth (if prev.month = 12 then prev.year + 1 else prev.year)
            (if prev.month = 12 then 1 else prev.month + 1))) ∧
    (computeNextOccurrence .monthly prev now).map DateTime.secOfDay
      = some prev.secOfDay := by
  refine ⟨?_, ?_, ?_, ?_, ?_, ?_, ?_, ?_⟩
  · cases rule <;> rfl
  · have h := toSec_addDays prev 1 hv
    simp [computeNextOccurrence, h]
  · have h := toSec_addDays prev 7 hv
    simp [computeNextOccurrence, h]
  · have h := toSec_addDays prev n hv
    simp [computeNextOccurrence, h]
  · by_cases hm : prev.month = 12 <;> simp [computeNextOccurrence, nextMonthClamped, hm]
  · by_cases hm : prev.month = 12 <;> simp [computeNextOccurrence, nextMonthClamped, hm]
  · by_cases hm : prev.month = 12 <;> simp [computeNextOccurrence, nextMonthClamped, hm]
  · by_cases hm : prev.month = 12 <;> simp [computeNextOccurrence, nextMonthClamped, hm]

/-- Witness for C4: scheduling on 2023-01-31 12:00:00 with Monthly
recurrence advances to day 28 (non-leap February), on 2024-01-31 to day 29
(leap February); Daily advances the linear timestamp by exactly one day;
Custom(3) is independent of the poll time. -/
theorem recurrence_advances_from_previous_occurrence_witness :
    (computeNextOccurrence .monthly ⟨2023, 1, 31, 43200⟩ ⟨2023, 3, 1, 0⟩).map
        DateTime.day = some 28 ∧
    (computeNextOccurrence .monthly ⟨2024, 1, 31, 43200⟩ ⟨2024, 3, 1, 0⟩).map
        DateTime.day = some 29 ∧
    (computeNextOccurrence .daily ⟨2023, 1, 31, 43200⟩ ⟨2023, 3, 1, 0⟩).map toSec
      = some (toSec ⟨2023, 1, 31, 43200⟩ + 86400) ∧
    computeNextOccurrence (.custom 3) ⟨2023, 1, 31, 43200⟩ ⟨2023, 3, 1, 0⟩
      = computeNextOccurrence (.custom 3) ⟨2023, 1, 31, 43200⟩ ⟨2024, 12, 31, 0⟩ :=
  ⟨Eq.trans ((recurrence_advances_from_previous_occurrence .monthly ⟨2023, 1, 31, 43200⟩
      ⟨2023, 3, 1, 0⟩ ⟨2023, 3, 1, 0⟩ 3 (by decide)).2.2.2.2.2.2.1) (by decide),
   Eq.trans ((recurrence_advances_from_previous_occurrence .monthly ⟨2024, 1, 31, 43200⟩
      ⟨2024, 3, 1, 0⟩ ⟨2024, 3, 1, 0⟩ 3 (by decide)).2.2.2.2.2.2.1) (by decide),
   (recurrence_advances_from_previous_occurrence .daily ⟨2023, 1, 31, 43200⟩
      ⟨2023, 3, 1, 0⟩ ⟨2023, 3, 1, 0⟩ 3 (by decide)).2.1,
   (recurrence_advances_from_previous_occurrence (.custom 3) ⟨2023, 1, 31, 43200⟩
      ⟨2023, 3, 1, 0⟩ ⟨2024, 12, 31, 0⟩ 3 (by decide)).1⟩

/-! ## Scheduler poll-cycle concurrency (C1)

The poll cycle of the missing `MessageScheduler`, modelled from the
specification (§4.4 steps 1–2, §5, glossary "Claim"): two overlapping poll
cycles A and B share the persistence store; each may fetch the current due
list, atomically claim a still-`Pending` due row (flipping it to a
non-due `processing` marker in the same step), and later dispatch any row
it has claimed.  Dispatch is deliberately a separate, later step: the
at-most-once property must follow from the atomicity of the claim alone,
however slow the send is. -/

/-- Modelled from the spec: the status of a scheduled-message row during a
poll cycle; `processing` is the interim non-due marker of §4.4 step 2. -/
inductive MsgStatus where
  | pending
  | processing
  | sent
  | failed
deriving DecidableEq

/-- Modelled from the spec: the local state of one poll cycle — the due
list it fetched, the rows it has claimed, and the rows it has dispatched. -/
structure CycleState where
  worklist : List Nat
  claimed : List Nat
  dispatched : List Nat
deriving DecidableEq

/-- Modelled from the spec: the shared store (row id, status) together with
two overlapping poll cycles of the missing `MessageScheduler`. -/
structure SchedState where
  store : List (Nat × MsgStatus)
  cycleA : CycleState
  cycleB : CycleState
deriving DecidableEq

/-- Modelled from the spec: `dueMessages` — the ids of the `Pending` rows
(time is abstracted: every pending row counts as due, a superset). -/
def dueIds (store : List (Nat × MsgStatus)) : List Nat :=
  (store.filter (fun r => r.2 == MsgStatus.pending)).map (fun r => r.1)

/-- Modelled from the spec: a single-row status update
(`UPDATE ... SET status WHERE id = mid`). -/
def setStatus (store : List (Nat × MsgStatus)) (mid : Nat) (v : MsgStatus) :
    List (Nat × MsgStatus) :=
  store.map (fun r => (r.1, if r.1 = mid then v else r.2))

/-- Status of the first row with the given id, if any. -/
def lookupStatus (store : List (Nat × MsgStatus)) (mid : Nat) : Option MsgStatus :=
  match store with
  | [] => none
  | r :: rest => if r.1 = mid then some r.2 else lookupStatus rest mid

/-- Modelled from the spec: one atomic step of either poll cycle — fetch
the due list, claim one still-pending fetched row (atomically flipping it
to `processing`), or dispatch a previously claimed row.  Steps of the two
cycles interleave arbitrarily. -/
inductive SchedStep : SchedState → SchedState → Prop where
  | fetchA (s : SchedState) :
      SchedStep s { s with cycleA := { s.cycleA with worklist := dueIds s.store } }
  | fetchB (s : SchedState) :
      SchedStep s { s with cycleB := { s.cycleB with worklist := dueIds s.store } }
  | claimA (s : SchedState) (mid : Nat) (hw : mid ∈ s.cycleA.worklist)
      (hp : lookupStatus s.store mid = some MsgStatus.pending) :
      SchedStep s
        { s with store := setStatus s.store mid MsgStatus.processing,
                 cycleA := { s.cycleA with claimed := mid :: s.cycleA.claimed } }
  | claimB (s : SchedState) (mid : Nat) (hw : mid ∈ s.cycleB.worklist)
      (hp : lookupStatus s.store mid = some MsgStatus.pending) :
      SchedStep s
        { s with store := setStatus s.store mid MsgStatus.processing,
                 cycleB := { s.cycleB with claimed := mid :: s.cycleB.claimed } }
  | dispatchA (s : SchedState) (mid : Nat) (hc : mid ∈ s.cycleA.claimed) :
      SchedStep s
        { s with cycleA := { s.cycleA with dispatched := mid :: s.cycleA.dispatched } }
  | dispatchB (s : SchedState) (mid : Nat) (hc : mid ∈ s.cycleB.claimed) :
      SchedStep s
        { s with cycleB := { s.cycleB with dispatched := mid :: s.cycleB.dispatched } }

/-- The system before any poll activity: an arbitrary store, both cycles
idle. -/
def initState (rows : List (Nat × MsgStatus)) : SchedState :=
  { store := rows,
    cycleA := { worklist := [], claimed := [], dispatched := [] },
    cycleB := { worklist := [], claimed := [], dispatched := [] } }

/-- Inductive invariant: claimed rows are no longer pending, dispatched
rows were claimed, and the two cycles' claim sets are disjoint. -/
def SchedInv (s : SchedState) : Prop :=
  (∀ x ∈ s.cycleA.claimed, ¬ lookupStatus s.store x = some MsgStatus.pending) ∧
  (∀ x ∈ s.cycleB.claimed, ¬ lookupStatus s.store x = some MsgStatus.pending) ∧
  (∀ x ∈ s.cycleA.dispatched, x ∈ s.cycleA.claimed) ∧
  (∀ x ∈ s.cycleB.dispatched, x ∈ s.cycleB.claimed) ∧
  (∀ x ∈ s.cycleA.claimed, x ∉ s.cycleB.claimed)

theorem lookupStatus_setStatus (store : List (Nat × MsgStatus)) (mid tid : Nat)
    (v : MsgStatus) :
    lookupStatus (setStatus store mid v) tid
      = (lookupStatus store tid).map (fun old => if tid = mid then v else old) := by
  induction store with
  | nil => rfl
  | cons r rest ih =>
    obtain ⟨k, sv⟩ := r
    by_cases htk : k = tid
    · subst htk
      by_cases hkm : k = mid
      · subst hkm
        simp [setStatus, lookupStatus]
      · simp [setStatus, lookupStatus, hkm]
    · by_cases hkm : k = mid
      · subst hkm
        simpa [setStatus, lookupStatus, htk] using ih
      · simpa [setStatus, lookupStatus, htk] using ih

theorem schedInv_step {s t : SchedState} (hs : SchedInv s) (hstep : SchedStep s t) :
    SchedInv t := by
  obtain ⟨hA, hB, hDA, hDB, hdisj⟩ := hs
  cases hstep with
  | fetchA => exact ⟨hA, hB, hDA, hDB, hdisj⟩
  | fetchB => exact ⟨hA, hB, hDA, hDB, hdisj⟩
  | claimA mid hw hp =>
    refine ⟨?_, ?_, ?_, hDB, ?_⟩
    · intro x hx
      rw [lookupStatus_setStatus]
      rcases List.mem_cons.mp hx with h | h
      · subst h
        rw [hp]
        simp
      · cases hlx : lookupStatus s.store x with
        | none => simp
        | some sv =>
          have hne : sv ≠ MsgStatus.pending := by
            intro hcontra
            exact hA x h (by rw [hlx, hcontra])
          by_cases hxm : x = mid <;> simp [hxm, hne]
    · intro x hx
      rw [lookupStatus_setStatus]
      cases hlx : lookupStatus s.store x with
      | none => simp
      | some sv =>
        have hne : sv ≠ MsgStatus.pending := by
          intro hcontra
          exact hB x hx (by rw [hlx, hcontra])
        by_cases hxm : x = mid <;> simp [hxm, hne]
    · intro x hx
      exact List.mem_cons_of_mem _ (hDA x hx)
    · intro x hx
      rcases List.mem_cons.mp hx with h | h
      · subst h
        intro hxB
        exact hB x hxB hp
      · exact hdisj x h
  | claimB mid hw hp =>
    refine ⟨?_, ?_, hDA, ?_, ?_⟩
    · intro x hx
      rw [lookupStatus_setStatus]
      cases hlx : lookupStatus s.store x with
      | none => simp
      | some sv =>
        have hne : sv ≠ MsgStatus.pending := by
          intro hcontra
          exact hA x hx (by rw [hlx, hcontra])
        by_cases hxm : x = mid <;> simp [hxm, hne]
    · intro x hx
      rw [lookupStatus_setStatus]
      rcases List.mem_cons.mp hx with h | h
      · subst h
        rw [hp]
        simp
      · cases hlx : lookupStatus s.store x with
        | none => simp
        | some sv =>
          have hne : sv ≠ MsgStatus.pending := by
            intro hcontra
            exact hB x h (by rw [hlx, hcontra])
          by_cases hxm : x = mid <;> simp [hxm, hne]
    · intro x hx
      exact List.mem_cons_of_mem _ (hDB x hx)
    · intro x hx hxB
      rcases List.mem_cons.mp hxB with h | h
      · subst h
        exact hA x hx hp
      · exact hdisj x hx h
  | dispatchA mid hc =>
    refine ⟨hA, hB, ?_, hDB, hdisj⟩
    intro x hx
    rcases List.mem_cons.mp hx with h | h
    · subst h
      exact hc
    · exact hDA x h
  | dispatchB mid hc =>
    refine ⟨hA, hB, hDA, ?_, hdisj⟩
    intro x hx
    rcases List.mem_cons.mp hx with h | h
    · subst h
      exact hc
    · exact hDB x h

theorem schedInv_reachable (rows : List (Nat × MsgStatus)) (s : SchedState)
    (h : Relation.ReflTransGen SchedStep (initState rows) s) : SchedInv s := by
  induction h with
  | refl =>
    refine ⟨?_, ?_, ?_, ?_, ?_⟩ <;> intro x hx <;> simp [initState] at hx
  | tail hsteps hstep ih => exact schedInv_step ih hstep

/-- C1: every due message is claimed (marked non-due) atomically before its
dispatch is attempted, so in every reachable interleaving of two
overlapping poll cycles no scheduled-message id is dispatched by both
cycles. -/
theorem overlapping_cycles_dispatch_at_most_once
    (rows : List (Nat × MsgStatus)) (s : SchedState) (mid : Nat)
    (hreach : Relation.ReflTransGen SchedStep (initState rows) s) :
    ¬ (mid ∈ s.cycleA.dispatched ∧ mid ∈ s.cycleB.dispatched) := by
  obtain ⟨hA, hB, hDA, hDB, hdisj⟩ := schedInv_reachable rows s hreach
  rintro ⟨hxA, hxB⟩
  exact hdisj mid (hDA mid hxA) (hDB mid hxB)

/-- Witness for C1: a concrete three-step run (cycle A fetches, claims
row 1, dispatches row 1) reaching a state where row 1 is dispatched by A
and not by B. -/
theorem overlapping_cycles_dispatch_at_most_once_witness :
    ¬ ((1 ∈ ({ store := [(1, MsgStatus.processing)],
               cycleA := { worklist := [1], claimed := [1], dispatched := [1] },
               cycleB := { worklist := [], claimed := [], dispatched := [] } }
            : SchedState).cycleA.dispatched) ∧
       (1 ∈ ({ store := [(1, MsgStatus.processing)],
               cycleA := { worklist := [1], claimed := [1], dispatched := [1] },
               cycleB := { worklist := [], claimed := [], dispatched := [] } }
            : SchedState).cycleB.dispatched)) :=
  overlapping_cycles_dispatch_at_most_once [(1, MsgStatus.pending)] _ 1
    (Relation.ReflTransGen.tail
      (Relation.ReflTransGen.tail
        (Relation.ReflTransGen.tail Relation.ReflTransGen.refl
          (SchedStep.fetchA (initState [(1, MsgStatus.pending)])))
        (SchedStep.claimA _ 1 (by decide) rfl))
      (SchedStep.dispatchA _ 1 (by decide)))

end MessageMaster
